import Mathlib

/-!
Shallow embedding of `temba/api/v2/serializers.py` (rapidpro API v2
serialization layer) for verifying its specification.

Conventions used throughout:
* Python `None`-able values become `Option`.
* Python truthiness of an optional list (`data.get(k)` that is either
  absent or a list) is `pyTruthyList`: truthy exactly when present and
  non-empty.  Truthiness of an optional string is `pyTruthyStr`: truthy
  exactly when present and non-empty.  A resolved model object (a Flow,
  Campaign, Contact reference produced by a relation field) is always
  truthy, so its truthiness is `Option.isSome`.
* A Python dict built by a comprehension is an association list in
  iteration order; lookups follow dict semantics where a later binding
  for the same key overwrites an earlier one (`pyDictGet`).
* Raising `ValidationError` is returning `Except.error`.
* JSON output of a read serializer is a `List (String × JSON)`: the
  Django REST framework `to_representation` of a `ModelSerializer`
  emits one entry for every name in `Meta.fields`, in order, and a
  method field whose getter returns `None` is emitted with value null.
-/

/-- JSON values, used for serializer input and output. -/
inductive JSON where
  | null
  | bool (b : Bool)
  | num (n : Int)
  | str (s : String)
  | arr (elems : List JSON)
  | obj (entries : List (String × JSON))
deriving Repr

/-- Python truthiness of an optional list value: truthy exactly when present
and non-empty (absent and `[]` are both falsy). -/
def pyTruthyList {α : Type} : Option (List α) → Bool
  | some l => !l.isEmpty
  | none => false

/-- Python truthiness of an optional string value: truthy exactly when present
and non-empty (absent and the empty string are both falsy). -/
def pyTruthyStr : Option String → Bool
  | some s => !s.isEmpty
  | none => false

/-- Lookup in an association list with Python dict semantics: when several
entries share a key, the last one wins (later insertions overwrite). -/
def pyDictGet {α β : Type} [BEq α] (d : List (α × β)) (k : α) : Option β :=
  List.lookup k d.reverse

/-- Tests whether an `Except` result is an error, i.e. whether the modelled
Python code raised. -/
def exceptIsError {ε α : Type} : Except ε α → Bool
  | Except.error _ => true
  | Except.ok _ => false

/-- Embeds `extract_constants`: given a constant config, a list of 3-tuples
`(internal_code, label, api_code)`, builds the dict internal code to API code
(`reverse = false`) or API code to internal code (`reverse = true`), as an
association list in iteration order. -/
def extract_constants (config : List (String × String × String)) (reverse : Bool) :
    List (String × String) :=
  if reverse then
    config.map (fun t => (t.2.2, t.1))
  else
    config.map (fun t => (t.1, t.2.2))

/-- Structured detail of a `rest_framework` `ValidationError`: a mapping from
field name (or the non-field-errors key) to a list of messages. -/
structure VError where
  detail : List (String × List String)
deriving Repr, DecidableEq

/-- Embeds `WriteSerializer.run_validation`: a non-dict body raises a
validation error keyed under non_field_errors; a dict body is passed on to the
normal `rest_framework` validation path, modelled here as the continuation
`superValidation` (per-field validation and then the `validate` method). -/
def WriteSerializer.run_validation {α : Type}
    (superValidation : List (String × JSON) → Except VError α) (data : JSON) :
    Except VError α :=
  match data with
  | JSON.obj entries => superValidation entries
  | _ => Except.error { detail := [("non_field_errors", ["Request body should be a single JSON object"])] }

/-- Validation error raised by `WriteSerializer.run_validation` on a body that
is not a JSON object. -/
def nonObjectError : VError :=
  { detail := [("non_field_errors", ["Request body should be a single JSON object"])] }

/-- Minimal parent reference of an admin boundary (its `osm_id` and name). -/
structure BoundaryRef where
  osm_id : String
  name : String
deriving Repr

/-- Embeds the `AdminBoundary` model attributes read by
`AdminBoundaryReadSerializer`.  `simplified_geometry` is the parsed geojson
when the boundary has a simplified geometry, `none` otherwise. -/
structure AdminBoundary where
  osm_id : String
  name : String
  parent : Option BoundaryRef
  level : Int
  aliases : List String
  simplified_geometry : Option JSON
deriving Repr

/-- Request context consulted by `AdminBoundaryReadSerializer`. -/
structure BoundaryContext where
  include_geometry : Bool
deriving Repr

/-- Embeds `AdminBoundaryReadSerializer.get_parent`: a minimal dict of the
osm_id and name of the parent when there is one, else null. -/
def AdminBoundaryReadSerializer.get_parent (obj : AdminBoundary) : JSON :=
  match obj.parent with
  | some p => JSON.obj [("osm_id", JSON.str p.osm_id), ("name", JSON.str p.name)]
  | none => JSON.null

/-- Embeds `AdminBoundaryReadSerializer.get_aliases`. -/
def AdminBoundaryReadSerializer.get_aliases (obj : AdminBoundary) : JSON :=
  JSON.arr (obj.aliases.map JSON.str)

/-- Embeds `AdminBoundaryReadSerializer.get_geometry`: the parsed simplified
geometry when the context flag is set and the boundary has one, else `none`
(the Python method returns `None`). -/
def AdminBoundaryReadSerializer.get_geometry (ctx : BoundaryContext)
    (obj : AdminBoundary) : Option JSON :=
  match ctx.include_geometry, obj.simplified_geometry with
  | true, some g => some g
  | _, _ => none

/-- Representation produced by `AdminBoundaryReadSerializer`: one entry per
name in `Meta.fields`, method fields resolved through their getters, a getter
returning `None` emitted as null. -/
def AdminBoundaryReadSerializer.to_representation (ctx : BoundaryContext)
    (obj : AdminBoundary) : List (String × JSON) :=
  [("osm_id", JSON.str obj.osm_id),
   ("name", JSON.str obj.name),
   ("parent", AdminBoundaryReadSerializer.get_parent obj),
   ("level", JSON.num obj.level),
   ("aliases", AdminBoundaryReadSerializer.get_aliases obj),
   ("geometry", (AdminBoundaryReadSerializer.get_geometry ctx obj).getD JSON.null)]

/-- Embeds the org attributes consulted by the serializers: `is_suspended()`
and `is_anon`. -/
structure Org where
  is_suspended : Bool
  is_anon : Bool
deriving Repr

/-- Embeds the `Contact` model attributes read by the serializers.
`get_field` models `obj.get_field(key)`, the stored custom field value;
`user_groups` holds `(uuid, name)` pairs. -/
structure Contact where
  uuid : String
  name : Option String
  language : Option String
  is_active : Bool
  is_blocked : Bool
  is_stopped : Bool
  urns : List String
  user_groups : List (String × String)
  get_field : String → Option String

/-- Request context consulted by `ContactReadSerializer`:
`serialize_field_value` models the collaborator
`Contact.serialize_field_value(contact_field, value)`. -/
structure ReadContext where
  org_is_anon : Bool
  contact_fields : List String
  serialize_field_value : String → Option String → JSON

/-- Embeds `ContactReadSerializer.get_name`. -/
def ContactReadSerializer.get_name (obj : Contact) : Option String :=
  if obj.is_active then obj.name else none

/-- Embeds `ContactReadSerializer.get_language`. -/
def ContactReadSerializer.get_language (obj : Contact) : Option String :=
  if obj.is_active then obj.language else none

/-- Embeds `ContactReadSerializer.get_urns`: empty for anonymous orgs and for
inactive contacts. -/
def ContactReadSerializer.get_urns (ctx : ReadContext) (obj : Contact) :
    List String :=
  if ctx.org_is_anon || !obj.is_active then [] else obj.urns

/-- Embeds `ContactReadSerializer.get_groups`: uuid and name dicts of the
user groups, empty for inactive contacts. -/
def ContactReadSerializer.get_groups (obj : Contact) : List JSON :=
  if !obj.is_active then []
  else obj.user_groups.map (fun g => JSON.obj [("uuid", JSON.str g.1), ("name", JSON.str g.2)])

/-- Embeds `ContactReadSerializer.get_contact_fields`: one entry per contact
field supplied in the request context, resolved through the field
serialization collaborator; empty for inactive contacts. -/
def ContactReadSerializer.get_contact_fields (ctx : ReadContext) (obj : Contact) :
    List (String × JSON) :=
  if !obj.is_active then []
  else ctx.contact_fields.map (fun key => (key, ctx.serialize_field_value key (obj.get_field key)))

/-- Embeds `ContactReadSerializer.get_blocked`. -/
def ContactReadSerializer.get_blocked (obj : Contact) : Option Bool :=
  if obj.is_active then some obj.is_blocked else none

/-- Embeds `ContactReadSerializer.get_stopped`. -/
def ContactReadSerializer.get_stopped (obj : Contact) : Option Bool :=
  if obj.is_active then some obj.is_stopped else none

/-- Validated data of `BroadcastWriteSerializer`: references are resolved by
the relation fields, kept here as uuids. -/
structure BroadcastData where
  text : String
  urns : Option (List String)
  contacts : Option (List String)
  groups : Option (List String)
  channel : Option String
deriving Repr, DecidableEq

/-- Embeds `BroadcastWriteSerializer.validate`: raises for a suspended org,
then raises unless at least one of urns, contacts, groups is truthy, else
returns the data. -/
def BroadcastWriteSerializer.validate (org : Org) (data : BroadcastData) :
    Except String BroadcastData :=
  if org.is_suspended then
    Except.error "Sorry, your account is currently suspended. To enable sending messages, please contact support."
  else if !(pyTruthyList data.urns || pyTruthyList data.contacts || pyTruthyList data.groups) then
    Except.error "Must provide either urns, contacts or groups"
  else
    Except.ok data

/-- Modelled from the spec: the campaign event type constants
`CampaignEvent.TYPE_FLOW` and `CampaignEvent.TYPE_MESSAGE` are imported from
`temba.campaigns.models`, which is not part of the sources; they are the two
distinct single-character codes of the flow-triggered and message-triggered
event variants. -/
def CampaignEvent.TYPE_FLOW : String := "F"

/-- Modelled from the spec: see `CampaignEvent.TYPE_FLOW`. -/
def CampaignEvent.TYPE_MESSAGE : String := "M"

/-- Embeds the `CampaignEvent` model attributes touched by
`CampaignEventWriteSerializer.save`.  `campaign`, `relative_to` and `flow`
are kept as identifiers of the referenced rows. -/
structure CampaignEvent where
  campaign : String
  offset : Int
  unit : String
  delivery_hour : Int
  relative_to : String
  event_type : String
  message : Option String
  flow : String
deriving Repr, DecidableEq

/-- Validated data of `CampaignEventWriteSerializer`.  `message` is absent or
a string; `flow` is absent or a resolved Flow reference (kept as its uuid),
which as a model object is truthy exactly when present. -/
structure CampaignEventData where
  campaign : String
  offset : Int
  unit : String
  delivery_hour : Int
  relative_to : String
  message : Option String
  flow : Option String
deriving Repr, DecidableEq

/-- Embeds `CampaignEventWriteSerializer.validate`: raises when message and
flow are both truthy or both falsy, else returns the data. -/
def CampaignEventWriteSerializer.validate (data : CampaignEventData) :
    Except String CampaignEventData :=
  if (pyTruthyStr data.message && data.flow.isSome) || (!pyTruthyStr data.message && !data.flow.isSome) then
    Except.error "Flow UUID or a message text required."
  else
    Except.ok data

/-- Embeds `CampaignEventWriteSerializer.validate_campaign`: for a serializer
bound to an existing instance, a supplied campaign differing from the
instances campaign raises.  The supplied value is a resolved Campaign object,
hence always truthy, so the Python `and value` conjunct always holds here. -/
def CampaignEventWriteSerializer.validate_campaign (inst? : Option CampaignEvent)
    (value : String) : Except String String :=
  match inst? with
  | some inst =>
    if inst.campaign ≠ value then
      Except.error "Cannot change campaign for existing events"
    else
      Except.ok value
  | none => Except.ok value

/-- Embeds the update branch of `CampaignEventWriteSerializer.save` (the
serializer is bound to instance `inst`).  `new_single_message_flow` stands for
the identifier returned by the collaborator `Flow.create_single_message`; when
the event already is a message event its hidden flow is updated in place, so
its identifier is unchanged. -/
def CampaignEventWriteSerializer.save_update (new_single_message_flow : String)
    (inst : CampaignEvent) (data : CampaignEventData) : CampaignEvent :=
  let inst1 :=
    match data.flow with
    | some f =>
      { inst with flow := f, event_type := CampaignEvent.TYPE_FLOW, message := none }
    | none =>
      if inst.event_type ≠ CampaignEvent.TYPE_MESSAGE then
        { inst with message := data.message, flow := new_single_message_flow,
                    event_type := CampaignEvent.TYPE_MESSAGE }
      else
        { inst with message := data.message }
  { inst1 with offset := data.offset, unit := data.unit,
               delivery_hour := data.delivery_hour, relative_to := data.relative_to }

/-- Request context consulted by `ContactWriteSerializer`.  `lookup_urn` is
`lookup_values` restricted to the key used here: it is
`some (lookup_values at urns__urn)` exactly when the URL lookup was by URN.
`from_urn` models the collaborator `Contact.from_urn(org, urn)`, returning the
uuid of the contact owning the URN in the org, if any. -/
structure ContactWriteContext where
  org : Org
  lookup_urn : Option String
  from_urn : String → Option String

/-- Embeds `ContactWriteSerializer.validate_urns`: raises when the URL lookup
was by URN; raises for updates (bound instance) in an anonymous org; on
creation raises at the first supplied URN already owned by another contact. -/
def ContactWriteSerializer.validate_urns (ctx : ContactWriteContext)
    (inst? : Option Contact) (value : List String) :
    Except String (List String) :=
  if ctx.lookup_urn.isSome then
    Except.error "Field not allowed when using URN in URL"
  else if ctx.org.is_anon && inst?.isSome then
    Except.error "Updating URNs not allowed for anonymous organizations"
  else if inst?.isNone then
    match value.find? (fun urn => (ctx.from_urn urn).isSome) with
    | some urn => Except.error ("URN belongs to another contact: " ++ urn)
    | none => Except.ok value
  else
    Except.ok value

/-- Validated data of `ContactWriteSerializer`. -/
structure ContactWriteData where
  name : Option String
  language : Option String
  urns : Option (List String)
  groups : Option (List String)
  fields : Option (List (String × String))
deriving Repr, DecidableEq

/-- Embeds `ContactWriteSerializer.validate`: when the urns entry is falsy and
the URL lookup was by URN, the URL-supplied URN is passed through the URN
validation collaborator `validate_urn` (modelled as a parameter, since it
lives in the fields module) and injected as the single-element urns list. -/
def ContactWriteSerializer.validate (validate_urn : String → Except String String)
    (ctx : ContactWriteContext) (data : ContactWriteData) :
    Except String ContactWriteData :=
  if !pyTruthyList data.urns then
    match ctx.lookup_urn with
    | some url_urn =>
      match validate_urn url_urn with
      | Except.ok urn => Except.ok { data with urns := some [urn] }
      | Except.error e => Except.error e
    | none => Except.ok data
  else
    Except.ok data

/-- Modelled from the spec: the message status constants `PENDING` and
`QUEUED` are imported from `temba.msgs.models`, which is not part of the
sources; they are two distinct single-character status codes. -/
def PENDING : String := "P"

/-- Modelled from the spec: see `PENDING`. -/
def QUEUED : String := "Q"

/-- Embeds the `Msg` model attributes read by `MsgReadSerializer.get_status`. -/
structure Msg where
  status : String
  text : String
deriving Repr, DecidableEq

/-- Embeds `MsgReadSerializer.get_status`: a PENDING status is looked up
through the QUEUED entry of the status table, every other status through its
own entry.  The table `STATUSES` is `extract_constants STATUS_CONFIG`, kept as
a parameter because `STATUS_CONFIG` lives in `temba.msgs.models`. -/
def MsgReadSerializer.get_status (STATUSES : List (String × String)) (obj : Msg) :
    Option String :=
  pyDictGet STATUSES (if obj.status = PENDING then QUEUED else obj.status)

/-!
Theorems, one per claim, with witnesses where the statement carries a
hypothesis.
-/

/-- C1: For every CampaignEvent write payload reaching `validate` (field
validation guarantees that a present message is not the blank string, hence
the hypothesis), `CampaignEventWriteSerializer.validate` raises exactly when
the payload has both message and flow set or neither set, and returns the data
unchanged when exactly one of the two is present. -/
theorem campaignEvent_validate_message_flow_exclusive
    (data : CampaignEventData) (h : data.message ≠ some "") :
    (exceptIsError (CampaignEventWriteSerializer.validate data) = true ↔
      ((data.message.isSome ∧ data.flow.isSome) ∨ (data.message = none ∧ data.flow = none)))
    ∧ (((data.message.isSome ∧ data.flow = none) ∨ (data.message = none ∧ data.flow.isSome)) →
      CampaignEventWriteSerializer.validate data = Except.ok data) := by
  cases hm : data.message with
  | none =>
    cases hf : data.flow with
    | none =>
      simp [CampaignEventWriteSerializer.validate, pyTruthyStr, hm, hf, exceptIsError]
    | some f =>
      simp [CampaignEventWriteSerializer.validate, pyTruthyStr, hm, hf, exceptIsError]
  | some s =>
    have hs : s ≠ "" := fun he => h (by rw [hm, he])
    have hse : s.isEmpty = false := by
      rw [Bool.eq_false_iff]
      intro hemp
      exact hs ((String.isEmpty_iff s).mp hemp)
    cases hf : data.flow with
    | none =>
      simp [CampaignEventWriteSerializer.validate, pyTruthyStr, hm, hf, hse, exceptIsError]
    | some f =>
      simp [CampaignEventWriteSerializer.validate, pyTruthyStr, hm, hf, hse, exceptIsError]

/-- C1 witness: a payload carrying only a message text validates to itself. -/
theorem campaignEvent_validate_message_flow_exclusive_witness :
    CampaignEventWriteSerializer.validate
      { campaign := "c", offset := 1, unit := "D", delivery_hour := -1,
        relative_to := "f", message := some "hi", flow := none } =
    Except.ok
      { campaign := "c", offset := 1, unit := "D", delivery_hour := -1,
        relative_to := "f", message := some "hi", flow := none } :=
  (campaignEvent_validate_message_flow_exclusive
    { campaign := "c", offset := 1, unit := "D", delivery_hour := -1,
      relative_to := "f", message := some "hi", flow := none }
    (by decide)).2 (Or.inl (by decide))

/-- C2: For every inactive Contact, ContactReadSerializer projects name none,
language none, urns empty, groups empty, fields empty, blocked none and
stopped none, regardless of the stored attribute values and of the request
context. -/
theorem contactRead_inactive_redacts_everything
    (ctx : ReadContext) (obj : Contact) (h : obj.is_active = false) :
    ContactReadSerializer.get_name obj = none ∧
    ContactReadSerializer.get_language obj = none ∧
    ContactReadSerializer.get_urns ctx obj = [] ∧
    ContactReadSerializer.get_groups obj = [] ∧
    ContactReadSerializer.get_contact_fields ctx obj = [] ∧
    ContactReadSerializer.get_blocked obj = none ∧
    ContactReadSerializer.get_stopped obj = none := by
  simp [ContactReadSerializer.get_name, ContactReadSerializer.get_language,
        ContactReadSerializer.get_urns, ContactReadSerializer.get_groups,
        ContactReadSerializer.get_contact_fields, ContactReadSerializer.get_blocked,
        ContactReadSerializer.get_stopped, h]

/-- C2 witness: an inactive contact with every attribute populated is fully
redacted. -/
theorem contactRead_inactive_redacts_everything_witness :
    ContactReadSerializer.get_name
      { uuid := "u1", name := some "Ann", language := some "eng", is_active := false,
        is_blocked := true, is_stopped := true, urns := ["tel:1234"],
        user_groups := [("g1", "Testers")], get_field := fun _ => some "32" } = none ∧
    ContactReadSerializer.get_contact_fields
      { org_is_anon := false, contact_fields := ["age"],
        serialize_field_value := fun _ v => (v.map JSON.str).getD JSON.null }
      { uuid := "u1", name := some "Ann", language := some "eng", is_active := false,
        is_blocked := true, is_stopped := true, urns := ["tel:1234"],
        user_groups := [("g1", "Testers")], get_field := fun _ => some "32" } = [] := by
  have hmain := contactRead_inactive_redacts_everything
    { org_is_anon := false, contact_fields := ["age"],
      serialize_field_value := fun _ v => (v.map JSON.str).getD JSON.null }
    { uuid := "u1", name := some "Ann", language := some "eng", is_active := false,
      is_blocked := true, is_stopped := true, urns := ["tel:1234"],
      user_groups := [("g1", "Testers")], get_field := fun _ => some "32" }
    rfl
  exact ⟨hmain.1, hmain.2.2.2.2.1⟩

/-- C3: BroadcastWriteSerializer.validate raises whenever the org is
suspended, raises whenever none of urns, contacts, groups is provided or all
provided ones are empty, and returns the data when the org is not suspended
and at least one recipient field is non-empty. -/
theorem broadcast_validate_recipients_suspension (org : Org) (data : BroadcastData) :
    (org.is_suspended = true →
      exceptIsError (BroadcastWriteSerializer.validate org data) = true) ∧
    ((pyTruthyList data.urns || pyTruthyList data.contacts || pyTruthyList data.groups) = false →
      exceptIsError (BroadcastWriteSerializer.validate org data) = true) ∧
    (org.is_suspended = false →
      (pyTruthyList data.urns || pyTruthyList data.contacts || pyTruthyList data.groups) = true →
      BroadcastWriteSerializer.validate org data = Except.ok data) := by
  refine ⟨?_, ?_, ?_⟩
  · intro hs
    simp [BroadcastWriteSerializer.validate, hs, exceptIsError]
  · intro hr
    by_cases hs : org.is_suspended <;>
      simp [BroadcastWriteSerializer.validate, hs, hr, exceptIsError]
  · intro hs hr
    simp [BroadcastWriteSerializer.validate, hs, hr]

/-- C3 witness: a suspended org is rejected with any payload, and a
non-suspended org with one URN recipient passes validation. -/
theorem broadcast_validate_recipients_suspension_witness :
    exceptIsError (BroadcastWriteSerializer.validate
      { is_suspended := true, is_anon := false }
      { text := "hi", urns := none, contacts := none, groups := none, channel := none }) = true ∧
    BroadcastWriteSerializer.validate
      { is_suspended := false, is_anon := false }
      { text := "hi", urns := some ["tel:1234"], contacts := none, groups := none, channel := none } =
    Except.ok
      { text := "hi", urns := some ["tel:1234"], contacts := none, groups := none, channel := none } :=
  ⟨(broadcast_validate_recipients_suspension
      { is_suspended := true, is_anon := false }
      { text := "hi", urns := none, contacts := none, groups := none, channel := none }).1 rfl,
   (broadcast_validate_recipients_suspension
      { is_suspended := false, is_anon := false }
      { text := "hi", urns := some ["tel:1234"], contacts := none, groups := none, channel := none }).2.2
      rfl (by decide)⟩

/-- C4: WriteSerializer.run_validation rejects every non-object body with the
validation error keyed under non_field_errors, independently of the per-field
validation path (which therefore never runs), and passes every object body on
to the normal per-field validation path. -/
theorem run_validation_body_shape {α : Type}
    (sv sv2 : List (String × JSON) → Except VError α) (data : JSON) :
    ((∀ entries, data ≠ JSON.obj entries) →
      WriteSerializer.run_validation sv data = Except.error nonObjectError ∧
      WriteSerializer.run_validation sv data = WriteSerializer.run_validation sv2 data) ∧
    (∀ entries, data = JSON.obj entries →
      WriteSerializer.run_validation sv data = sv entries) := by
  cases data with
  | obj entries =>
    refine ⟨fun h => absurd rfl (h entries), fun e he => ?_⟩
    injection he with h2
    subst h2
    rfl
  | null => exact ⟨fun _ => ⟨rfl, rfl⟩, fun e he => JSON.noConfusion he⟩
  | bool b => exact ⟨fun _ => ⟨rfl, rfl⟩, fun e he => JSON.noConfusion he⟩
  | num n => exact ⟨fun _ => ⟨rfl, rfl⟩, fun e he => JSON.noConfusion he⟩
  | str s => exact ⟨fun _ => ⟨rfl, rfl⟩, fun e he => JSON.noConfusion he⟩
  | arr l => exact ⟨fun _ => ⟨rfl, rfl⟩, fun e he => JSON.noConfusion he⟩

/-- C4 witness: an array body is rejected with the non-field-errors shaped
error before any per-field validation runs. -/
theorem run_validation_body_shape_witness :
    WriteSerializer.run_validation (fun _ => Except.ok (0 : Nat)) (JSON.arr []) =
      Except.error nonObjectError :=
  ((run_validation_body_shape (fun _ => Except.ok (0 : Nat)) (fun _ => Except.ok 1)
      (JSON.arr [])).1 (fun _ he => JSON.noConfusion he)).1

/-- C5: ContactWriteSerializer.validate_urns raises exactly when the URL
lookup was by URN, or the org is anonymous and the serializer is bound to an
existing instance (an update), or on creation some supplied URN already
belongs to another contact; in particular the anonymous-org restriction never
fires on creation. -/
theorem contact_validate_urns_characterization (ctx : ContactWriteContext)
    (inst? : Option Contact) (value : List String) :
    exceptIsError (ContactWriteSerializer.validate_urns ctx inst? value) = true ↔
      (ctx.lookup_urn.isSome = true ∨
       (ctx.org.is_anon = true ∧ inst?.isSome = true) ∨
       (inst? = none ∧ ∃ urn ∈ value, (ctx.from_urn urn).isSome = true)) := by
  unfold ContactWriteSerializer.validate_urns
  by_cases hl : ctx.lookup_urn.isSome = true
  · simp [hl, exceptIsError]
  · have hl2 : ctx.lookup_urn.isSome = false := by
      rwa [Bool.not_eq_true] at hl
    cases inst? with
    | some c =>
      by_cases ha : ctx.org.is_anon = true
      · simp [hl2, ha, exceptIsError]
      · have ha2 : ctx.org.is_anon = false := by rwa [Bool.not_eq_true] at ha
        simp [hl2, ha2, exceptIsError]
    | none =>
      cases hf : value.find? (fun urn => (ctx.from_urn urn).isSome) with
      | some urn =>
        have hmem := List.mem_of_find?_eq_some hf
        have hp : (ctx.from_urn urn).isSome = true := by
          simpa using List.find?_some hf
        simp [hl2, hf, exceptIsError]
        exact ⟨urn, hmem, hp⟩
      | none =>
        simp [hl2, hf, exceptIsError]
        intro x hx
        have hnx := List.find?_eq_none.mp hf x hx
        simpa using hnx

/-- Lookup in an association list whose keys are pairwise distinct finds the
value of any member pair. -/
theorem lookup_eq_of_nodup_keys {α β : Type} [BEq α] [LawfulBEq α]
    (l : List (α × β)) (k : α) (v : β)
    (hnd : (l.map Prod.fst).Nodup) (hmem : (k, v) ∈ l) :
    List.lookup k l = some v := by
  induction l with
  | nil => cases hmem
  | cons p t ih =>
    obtain ⟨a, b⟩ := p
    obtain ⟨hna, hndt⟩ := List.nodup_cons.mp hnd
    rcases List.mem_cons.mp hmem with heq | hmem2
    · rw [Prod.mk.injEq] at heq
      obtain ⟨hk, hv⟩ := heq
      subst hk
      subst hv
      simp [List.lookup]
    · have hk : ¬(k == a) = true := by
        intro hbeq
        have hka : k = a := eq_of_beq hbeq
        apply hna
        rw [← hka]
        exact List.mem_map.mpr ⟨(k, v), hmem2, rfl⟩
      simp only [List.lookup, hk, if_false]
      exact ih hndt hmem2

/-- C6: For a constant config whose internal codes and whose API codes are
each pairwise distinct, the forward table of extract_constants maps each
internal code to its API code, and the reverse table maps that API code back
to the internal code, so the composition is the identity on the internal codes
of the config. -/
theorem extract_constants_roundtrip (config : List (String × String × String))
    (hInt : (config.map (fun t => t.1)).Nodup)
    (hApi : (config.map (fun t => t.2.2)).Nodup) :
    ∀ t ∈ config,
      pyDictGet (extract_constants config false) t.1 = some t.2.2 ∧
      pyDictGet (extract_constants config true) t.2.2 = some t.1 := by
  intro t ht
  constructor
  · unfold pyDictGet extract_constants
    simp only [Bool.false_eq_true, if_false]
    apply lookup_eq_of_nodup_keys
    · rw [List.map_reverse, List.map_map]
      exact List.nodup_reverse.mpr hInt
    · rw [List.mem_reverse]
      exact List.mem_map_of_mem (fun t => (t.1, t.2.2)) ht
  · unfold pyDictGet extract_constants
    simp only [if_true]
    apply lookup_eq_of_nodup_keys
    · rw [List.map_reverse, List.map_map]
      exact List.nodup_reverse.mpr hApi
    · rw [List.mem_reverse]
      exact List.mem_map_of_mem (fun t => (t.2.2, t.1)) ht

/-- C6 witness: a two-entry config with distinct codes round-trips. -/
theorem extract_constants_roundtrip_witness :
    pyDictGet (extract_constants
      [("P", "Pending", "pending"), ("Q", "Queued", "queued")] false) "P" = some "pending" ∧
    pyDictGet (extract_constants
      [("P", "Pending", "pending"), ("Q", "Queued", "queued")] true) "pending" = some "P" :=
  extract_constants_roundtrip
    [("P", "Pending", "pending"), ("Q", "Queued", "queued")]
    (by decide) (by decide) ("P", "Pending", "pending") (by decide)

/-- C7: MsgReadSerializer.get_status reports the same status string for a
message whose internal status is PENDING as for one whose internal status is
QUEUED, mapping PENDING through the QUEUED entry of the status table, and maps
any other status through its own entry of the table. -/
theorem msgRead_status_collapses_pending (STATUSES : List (String × String))
    (objP objQ obj : Msg)
    (hP : objP.status = PENDING) (hQ : objQ.status = QUEUED)
    (hO : obj.status ≠ PENDING) :
    MsgReadSerializer.get_status STATUSES objP = MsgReadSerializer.get_status STATUSES objQ ∧
    MsgReadSerializer.get_status STATUSES objP = pyDictGet STATUSES QUEUED ∧
    MsgReadSerializer.get_status STATUSES obj = pyDictGet STATUSES obj.status := by
  unfold MsgReadSerializer.get_status
  rw [hP, hQ, if_pos rfl, if_neg (by decide), if_neg hO]
  exact ⟨rfl, rfl, rfl⟩

/-- C7 witness: with a concrete status table, a pending message and a queued
message report the same status, and a sent message maps through its own
entry. -/
theorem msgRead_status_collapses_pending_witness :
    MsgReadSerializer.get_status [("Q", "queued"), ("S", "sent")]
      { status := "P", text := "hello" } =
    MsgReadSerializer.get_status [("Q", "queued"), ("S", "sent")]
      { status := "Q", text := "later" } ∧
    MsgReadSerializer.get_status [("Q", "queued"), ("S", "sent")]
      { status := "S", text := "done" } =
    pyDictGet [("Q", "queued"), ("S", "sent")] "S" :=
  ⟨(msgRead_status_collapses_pending [("Q", "queued"), ("S", "sent")]
      { status := "P", text := "hello" } { status := "Q", text := "later" }
      { status := "S", text := "done" } rfl rfl (by decide)).1,
   (msgRead_status_collapses_pending [("Q", "queued"), ("S", "sent")]
      { status := "P", text := "hello" } { status := "Q", text := "later" }
      { status := "S", text := "done" } rfl rfl (by decide)).2.2⟩

/-- C8 counterexample: with the include_geometry flag false and a boundary
that does have a simplified geometry, the representation still contains the
geometry field, with value null, so the field is included as null rather than
omitted. -/
theorem adminBoundary_geometry_included_as_null :
    ("geometry", JSON.null) ∈ AdminBoundaryReadSerializer.to_representation
      { include_geometry := false }
      { osm_id := "R100", name := "Nigeria", parent := none, level := 0,
        aliases := [], simplified_geometry := some (JSON.obj [("type", JSON.str "MultiPolygon")]) } ∧
    "geometry" ∈ (AdminBoundaryReadSerializer.to_representation
      { include_geometry := false }
      { osm_id := "R100", name := "Nigeria", parent := none, level := 0,
        aliases := [], simplified_geometry := some (JSON.obj [("type", JSON.str "MultiPolygon")]) }).map
      Prod.fst := by
  constructor
  · simp [AdminBoundaryReadSerializer.to_representation,
          AdminBoundaryReadSerializer.get_geometry]
  · simp [AdminBoundaryReadSerializer.to_representation]

/-- C8 amended: when the include_geometry flag is false or the boundary has no
simplified geometry, the representation contains the geometry field with value
null (included as null rather than omitted); the parent field is the minimal
pair of the parent osm_id and name when a parent exists, and null otherwise. -/
theorem adminBoundary_geometry_null_parent_minimal (ctx : BoundaryContext)
    (obj : AdminBoundary) :
    ((ctx.include_geometry = false ∨ obj.simplified_geometry = none) →
      ("geometry", JSON.null) ∈ AdminBoundaryReadSerializer.to_representation ctx obj) ∧
    (∀ p, obj.parent = some p →
      ("parent", JSON.obj [("osm_id", JSON.str p.osm_id), ("name", JSON.str p.name)]) ∈
        AdminBoundaryReadSerializer.to_representation ctx obj) ∧
    (obj.parent = none →
      ("parent", JSON.null) ∈ AdminBoundaryReadSerializer.to_representation ctx obj) := by
  refine ⟨?_, ?_, ?_⟩
  · intro h
    have hg : AdminBoundaryReadSerializer.get_geometry ctx obj = none := by
      rcases h with h | h
      · cases hsg : obj.simplified_geometry <;>
          simp [AdminBoundaryReadSerializer.get_geometry, h, hsg]
      · cases hic : ctx.include_geometry <;>
          simp [AdminBoundaryReadSerializer.get_geometry, h, hic]
    simp [AdminBoundaryReadSerializer.to_representation, hg]
  · intro p hp
    simp [AdminBoundaryReadSerializer.to_representation,
          AdminBoundaryReadSerializer.get_parent, hp]
  · intro h
    simp [AdminBoundaryReadSerializer.to_representation,
          AdminBoundaryReadSerializer.get_parent, h]

/-- C8 witness: on a boundary without geometry the geometry field is null, a
parent is rendered as its minimal pair, and a missing parent is null. -/
theorem adminBoundary_geometry_null_parent_minimal_witness :
    ("geometry", JSON.null) ∈ AdminBoundaryReadSerializer.to_representation
      { include_geometry := true }
      { osm_id := "R2", name := "Kano", parent := some { osm_id := "R100", name := "Nigeria" },
        level := 1, aliases := [], simplified_geometry := none } ∧
    ("parent", JSON.obj [("osm_id", JSON.str "R100"), ("name", JSON.str "Nigeria")]) ∈
      AdminBoundaryReadSerializer.to_representation
      { include_geometry := true }
      { osm_id := "R2", name := "Kano", parent := some { osm_id := "R100", name := "Nigeria" },
        level := 1, aliases := [], simplified_geometry := none } ∧
    ("parent", JSON.null) ∈ AdminBoundaryReadSerializer.to_representation
      { include_geometry := false }
      { osm_id := "R100", name := "Nigeria", parent := none, level := 0,
        aliases := [], simplified_geometry := none } :=
  ⟨(adminBoundary_geometry_null_parent_minimal { include_geometry := true }
      { osm_id := "R2", name := "Kano", parent := some { osm_id := "R100", name := "Nigeria" },
        level := 1, aliases := [], simplified_geometry := none }).1 (Or.inr rfl),
   (adminBoundary_geometry_null_parent_minimal { include_geometry := true }
      { osm_id := "R2", name := "Kano", parent := some { osm_id := "R100", name := "Nigeria" },
        level := 1, aliases := [], simplified_geometry := none }).2.1
      { osm_id := "R100", name := "Nigeria" } rfl,
   (adminBoundary_geometry_null_parent_minimal { include_geometry := false }
      { osm_id := "R100", name := "Nigeria", parent := none, level := 0,
        aliases := [], simplified_geometry := none }).2.2 rfl⟩

/-- C9: For a serializer bound to an existing campaign event,
validate_campaign raises exactly when the supplied campaign differs from the
campaign of the instance, and the update branch of save leaves the campaign of
the instance unchanged, whatever the validated data. -/
theorem campaignEvent_campaign_immutable (inst : CampaignEvent) (value : String)
    (new_flow : String) (data : CampaignEventData) :
    (exceptIsError (CampaignEventWriteSerializer.validate_campaign (some inst) value) = true ↔
      inst.campaign ≠ value) ∧
    (CampaignEventWriteSerializer.save_update new_flow inst data).campaign = inst.campaign := by
  constructor
  · by_cases h : inst.campaign = value <;>
      simp [CampaignEventWriteSerializer.validate_campaign, h, exceptIsError]
  · unfold CampaignEventWriteSerializer.save_update
    cases hdf : data.flow with
    | some f => rfl
    | none =>
      by_cases h : inst.event_type = CampaignEvent.TYPE_MESSAGE <;> simp [h]

/-- C10: When the request lookup was by URN and the payload carries no urns
entry, ContactWriteSerializer.validate injects the URL-supplied URN, passed
through the URN validation collaborator, as the single-element urns list of
the validated data. -/
theorem contact_validate_injects_lookup_urn
    (validate_urn : String → Except String String) (ctx : ContactWriteContext)
    (data : ContactWriteData) (url_urn u : String)
    (hnone : data.urns = none) (hlookup : ctx.lookup_urn = some url_urn)
    (hv : validate_urn url_urn = Except.ok u) :
    ContactWriteSerializer.validate validate_urn ctx data =
      Except.ok { data with urns := some [u] } := by
  unfold ContactWriteSerializer.validate
  rw [hnone, hlookup]
  simp [pyTruthyList, hv]

/-- C10 witness: a payload without urns, looked up by URN, gets the URL URN
injected. -/
theorem contact_validate_injects_lookup_urn_witness :
    ContactWriteSerializer.validate (fun s => Except.ok s)
      { org := { is_suspended := false, is_anon := false },
        lookup_urn := some "tel:250788123123", from_urn := fun _ => none }
      { name := some "Jan", language := none, urns := none, groups := none, fields := none } =
    Except.ok
      { name := some "Jan", language := none, urns := some ["tel:250788123123"],
        groups := none, fields := none } :=
  contact_validate_injects_lookup_urn (fun s => Except.ok s)
    { org := { is_suspended := false, is_anon := false },
      lookup_urn := some "tel:250788123123", from_urn := fun _ => none }
    { name := some "Jan", language := none, urns := none, groups := none, fields := none }
    "tel:250788123123" "tel:250788123123" rfl rfl rfl
